import Mathlib

/-!
# Verification of the `p-init` VS Code extension core (src/src/extension.ts)

Shallow embedding of the extension's pure core: the `__init__.py`
decoration provider (basename filter, emptiness cache, fail-open
inspection), the color-setting resolver (normalization, hex-literal
classification) and the `workbench.colorCustomizations` store adapter
(idempotent apply/remove), plus the configuration-target selection.

JavaScript objects used as string-keyed maps (the emptiness cache and the
color-customization section) are modelled as association lists with unique
keys up to lookup semantics; `undefined` results and absent sections are
modelled with `Option`.  Promise rejection of the file inspector is
modelled with `Except Unit`.  Effectful configuration reads are passed in
explicitly as values; writes are returned as updated store values together
with a flag recording whether `config.update` was called.
-/

namespace PInit

/-- Association-list lookup keyed by strings, modelling JS property read. -/
def storeLookup {β : Type} : List (String × β) → String → Option β
  | [], _ => none
  | (k, v) :: rest, key => if k = key then some v else storeLookup rest key

/-- Remove a key, modelling JS `delete obj[key]`. -/
def storeErase {β : Type} (m : List (String × β)) (k : String) : List (String × β) :=
  m.filter (fun p => p.1 ≠ k)

/-- Set a key to a value, modelling JS `obj[key] = v` (up to key order). -/
def storeSet {β : Type} (m : List (String × β)) (k : String) (v : β) : List (String × β) :=
  (k, v) :: storeErase m k

@[simp] theorem storeLookup_nil {β : Type} (k : String) :
    storeLookup ([] : List (String × β)) k = none := rfl

@[simp] theorem storeLookup_cons {β : Type} (k key : String) (v : β) (rest : List (String × β)) :
    storeLookup ((k, v) :: rest) key = if k = key then some v else storeLookup rest key := rfl

@[simp] theorem storeLookup_erase_self {β : Type} (m : List (String × β)) (k : String) :
    storeLookup (storeErase m k) k = none := by
  induction m with
  | nil => rfl
  | cons p rest ih =>
    obtain ⟨k', v⟩ := p
    by_cases h : k' = k <;> simp [storeErase, h, ih] at *
    · exact ih
    · simpa [storeErase] using ih

@[simp] theorem storeLookup_erase_ne {β : Type} (m : List (String × β)) (k k' : String)
    (h : k' ≠ k) : storeLookup (storeErase m k) k' = storeLookup m k' := by
  induction m with
  | nil => rfl
  | cons p rest ih =>
    obtain ⟨kk, v⟩ := p
    by_cases hk : kk = k
    · subst hk
      simp [storeErase, h, Ne.symm h] at *
      simpa [storeErase] using ih
    · by_cases hk' : kk = k'
      · subst hk'
        simp [storeErase, hk]
      · simp [storeErase, hk, hk'] at *
        simpa [storeErase] using ih

@[simp] theorem storeLookup_set_self {β : Type} (m : List (String × β)) (k : String) (v : β) :
    storeLookup (storeSet m k v) k = some v := by
  simp [storeSet]

@[simp] theorem storeLookup_set_ne {β : Type} (m : List (String × β)) (k k' : String) (v : β)
    (h : k' ≠ k) : storeLookup (storeSet m k v) k' = storeLookup m k' := by
  simp [storeSet, Ne.symm h, storeLookup_erase_ne m k k' h]

/-! ## Constants (extension.ts lines 6-17) -/

def INIT_FILENAME : String := "__init__.py"

def DEFAULT_EMPTY_COLOR : String := "#70707099"

def DEFAULT_NON_EMPTY_COLOR : String := "#FFFFFF99"

def EMPTY_DECORATION_THEME_ID : String := "pinit.decorations.initFileEmpty"

def NON_EMPTY_DECORATION_THEME_ID : String := "pinit.decorations.initFile"

/-! ## Data model -/

/-- `vscode.ThemeColor(id)`: a handle referencing a theme token by name. -/
structure ThemeColor where
  id : String
deriving DecidableEq, Repr

/-- `InitFileColors` (extension.ts lines 19-22). -/
structure InitFileColors where
  empty : ThemeColor
  nonEmpty : ThemeColor
deriving DecidableEq, Repr

/-- `new vscode.FileDecoration(badge, tooltip, color)`. -/
structure FileDecoration where
  badge : Option String
  tooltip : Option String
  color : Option ThemeColor
deriving DecidableEq, Repr

/-- A file inspector: `isEmpty(uri)` resolves to a boolean or rejects.
The rejection value is irrelevant to the code, so it is `Unit`. -/
def Inspector : Type := String → Except Unit Bool

/-- The mutable state of `InitFileDecorationProvider`: its colors and the
`emptinessCache` map keyed by `uri.fsPath`. -/
structure ProviderState where
  colors : InitFileColors
  cache : List (String × Bool)
deriving DecidableEq, Repr

/-- Node's `path.basename` on a POSIX path: drop trailing separators,
then take the part after the last remaining separator. -/
def basename (p : String) : String :=
  let chars := (p.data.reverse.dropWhile (fun c => c = '/')).reverse
  String.mk (chars.reverse.takeWhile (fun c => c ≠ '/')).reverse

/-! ## InitFileDecorationProvider (extension.ts lines 49-105) -/

/-- `isFileEmpty` (lines 90-104): consult the cache; on a miss run the
inspector, caching a successful answer; on rejection delete any entry for
the key and report `false` (fail open). Returns the answer and the updated
cache. -/
def isFileEmpty (inspector : Inspector) (cache : List (String × Bool)) (fsPath : String) :
    Bool × List (String × Bool) :=
  match storeLookup cache fsPath with
  | some b => (b, cache)
  | none =>
    match inspector fsPath with
    | .ok empty => (empty, storeSet cache fsPath empty)
    | .error _ => (false, storeErase cache fsPath)

/-- `provideFileDecoration` (lines 61-70): non-matching basenames get no
decoration; otherwise decorate from the (cached or inspected) emptiness. -/
def provideFileDecoration (inspector : Inspector) (st : ProviderState) (fsPath : String) :
    Option FileDecoration × ProviderState :=
  if basename fsPath ≠ INIT_FILENAME then
    (none, st)
  else
    let r := isFileEmpty inspector st.cache fsPath
    let color := if r.1 then st.colors.empty else st.colors.nonEmpty
    let tooltip := if r.1 then "Empty __init__.py file" else "Non-empty __init__.py file"
    (some ⟨none, some tooltip, some color⟩, { st with cache := r.2 })

/-- `invalidateCache` (lines 82-88): with a uri, delete its entry; with
none, clear the whole cache. -/
def invalidateCache (st : ProviderState) (uri : Option String) : ProviderState :=
  match uri with
  | some fsPath => { st with cache := storeErase st.cache fsPath }
  | none => { st with cache := [] }

/-- `setColors` (lines 76-80): replace the colors and clear the cache
(the refresh broadcast has no state of its own). -/
def setColors (st : ProviderState) (colors : InitFileColors) : ProviderState :=
  invalidateCache { st with colors := colors } none

/-! ## Color resolver and customization store adapter (lines 178-269) -/

/-- The `workbench.colorCustomizations` section: a JS object mapping token
names to color strings, or `undefined` when the section is absent. -/
abbrev CustomizationSection : Type := Option (List (String × String))

/-- The ECMAScript whitespace set used by `String.prototype.trim()`:
WhiteSpace (TAB, VT, FF, SP, NBSP, ZWNBSP/BOM and every Space_Separator
code point) together with the LineTerminators (LF, CR, LS, PS). -/
def jsWhitespace (c : Char) : Bool :=
  c.toNat = 0x9 || c.toNat = 0xA || c.toNat = 0xB || c.toNat = 0xC ||
  c.toNat = 0xD || c.toNat = 0x20 || c.toNat = 0xA0 || c.toNat = 0x1680 ||
  (0x2000 ≤ c.toNat && c.toNat ≤ 0x200A) || c.toNat = 0x2028 ||
  c.toNat = 0x2029 || c.toNat = 0x202F || c.toNat = 0x205F ||
  c.toNat = 0x3000 || c.toNat = 0xFEFF

/-- JS `String.prototype.trim()`: strip leading and trailing characters of
the ECMAScript whitespace set. -/
def jsTrim (s : String) : String :=
  String.mk (((s.data.dropWhile jsWhitespace).reverse.dropWhile jsWhitespace).reverse)

/-- `getConfiguredColor` (lines 194-198): `(value && value.trim()) || fallback`.
An undefined, empty, or all-whitespace value falls back; any other value is
trimmed. -/
def getConfiguredColor (value : Option String) (fallback : String) : String :=
  match value with
  | none => fallback
  | some v => if v = "" then fallback else if jsTrim v = "" then fallback else jsTrim v

/-- The regex char class `[0-9a-f]` under the `i` flag: the code-point range
of the decimal digits, or of the hex letters in either case. -/
def isHexDigitCI (c : Char) : Bool :=
  ('0'.toNat ≤ c.toNat && c.toNat ≤ '9'.toNat) ||
  ('a'.toNat ≤ c.toNat && c.toNat ≤ 'f'.toNat) ||
  ('A'.toNat ≤ c.toNat && c.toNat ≤ 'F'.toNat)

/-- `isHexColor` (lines 200-202): `/^#([0-9a-f]{6}|[0-9a-f]{8})$/i.test(value)`:
anchored at both ends, a `#` followed by six or eight hex digits. -/
def isHexColor (value : String) : Bool :=
  match value.data with
  | c :: rest => c = '#' && (rest.length == 6 || rest.length == 8) && rest.all isHexDigitCI
  | [] => false

/-- `applyColorCustomization` (lines 221-232): read the section (empty object
when absent), no-op when the token already holds the literal, otherwise set
it and write the section back. The boolean reports whether `config.update`
ran. -/
def applyColorCustomization (themeId hexColor : String) (store : CustomizationSection) :
    CustomizationSection × Bool :=
  let customizations := store.getD []
  if storeLookup customizations themeId = some hexColor then
    (store, false)
  else
    (some (storeSet customizations themeId hexColor), true)

/-- `removeColorCustomizationIfPresent` (lines 245-256): no-op when the token
is absent; otherwise delete it, writing back `undefined` when the reduced
section is empty. -/
def removeColorCustomizationIfPresent (themeId : String) (store : CustomizationSection) :
    CustomizationSection × Bool :=
  let customizations := store.getD []
  match storeLookup customizations themeId with
  | none => (store, false)
  | some _ =>
    let reduced := storeErase customizations themeId
    ((if reduced.length ≠ 0 then some reduced else none), true)

/-- `resolveColorFromSetting` (lines 184-192): normalize, classify, then
apply or remove the customization and return the handle. The raw configured
value is passed in; result is (handle, new section, whether a write ran). -/
def resolveColorFromSetting (rawValue : Option String) (themeId fallback : String)
    (store : CustomizationSection) : ThemeColor × CustomizationSection × Bool :=
  let colorSetting := getConfiguredColor rawValue fallback
  if isHexColor colorSetting then
    let r := applyColorCustomization themeId colorSetting store
    (⟨themeId⟩, r.1, r.2)
  else
    let r := removeColorCustomizationIfPresent themeId store
    (⟨colorSetting⟩, r.1, r.2)

/-- `resolveDecorationThemeColors` (lines 178-182): resolve the empty-variant
setting, then the non-empty-variant setting against the resulting store. -/
def resolveDecorationThemeColors (emptyRaw nonEmptyRaw : Option String)
    (store : CustomizationSection) : InitFileColors × CustomizationSection :=
  let e := resolveColorFromSetting emptyRaw EMPTY_DECORATION_THEME_ID DEFAULT_EMPTY_COLOR store
  let n := resolveColorFromSetting nonEmptyRaw NON_EMPTY_DECORATION_THEME_ID
    DEFAULT_NON_EMPTY_COLOR e.2.1
  ({ empty := e.1, nonEmpty := n.1 }, n.2.1)

/-! ## Configuration target (lines 264-269) -/

/-- `vscode.ConfigurationTarget`, restricted to the two values used. -/
inductive ConfigurationTarget where
  | Global
  | Workspace
deriving DecidableEq, Repr

/-- The JS expression `vscode.workspace.workspaceFolders?.length ?? 0 > 0`
with JS operator precedence: `>` binds tighter than `??`, so the value is
the folder count when `workspaceFolders` is defined and `0 > 0` (false)
otherwise — a number-or-boolean JS value. -/
def hasWorkspaceValue (workspaceFolders : Option Nat) : Nat ⊕ Bool :=
  match workspaceFolders with
  | some len => Sum.inl len
  | none => Sum.inr (decide (0 > 0))

/-- JS truthiness on the number-or-boolean value above. -/
def jsTruthy : Nat ⊕ Bool → Bool
  | Sum.inl n => n != 0
  | Sum.inr b => b

/-- `getColorCustomizationTarget` (lines 264-269), with `workspaceFolders`
abstracted to its length (or `none` when undefined). -/
def getColorCustomizationTarget (workspaceFolders : Option Nat) : ConfigurationTarget :=
  if jsTruthy (hasWorkspaceValue workspaceFolders) then
    ConfigurationTarget.Workspace
  else
    ConfigurationTarget.Global

/-- Modelled from the spec: the *intended* semantics of the configuration
target choice — "use workspace scope if any workspace folder is open, else
global scope". -/
def intendedColorCustomizationTarget (workspaceFolders : Option Nat) : ConfigurationTarget :=
  match workspaceFolders with
  | some len => if 0 < len then ConfigurationTarget.Workspace else ConfigurationTarget.Global
  | none => ConfigurationTarget.Global

/-- Modelled from the spec: the literal-color pattern
`^#([0-9a-f]{6}|[0-9a-f]{8})$` read declaratively — a `#`, followed by
exactly six or exactly eight characters, each a hex digit in either case
(case-insensitive matching). -/
def specLiteralColorPattern (s : String) : Prop :=
  ∃ ds : List Char, s.data = '#' :: ds ∧ (ds.length = 6 ∨ ds.length = 8) ∧
    ∀ c ∈ ds, c ∈ "0123456789abcdef".data ∨ c ∈ "ABCDEF".data

/-! ## Helper lemmas about the provider -/

theorem isFileEmpty_hit (inspector : Inspector) (cache : List (String × Bool)) (p : String)
    (b : Bool) (h : storeLookup cache p = some b) :
    isFileEmpty inspector cache p = (b, cache) := by
  simp [isFileEmpty, h]

theorem isFileEmpty_miss_ok (inspector : Inspector) (cache : List (String × Bool)) (p : String)
    (b : Bool) (hm : storeLookup cache p = none) (hi : inspector p = .ok b) :
    isFileEmpty inspector cache p = (b, storeSet cache p b) := by
  simp [isFileEmpty, hm, hi]

theorem isFileEmpty_miss_error (inspector : Inspector) (cache : List (String × Bool)) (p : String)
    (hm : storeLookup cache p = none) (hi : inspector p = .error ()) :
    isFileEmpty inspector cache p = (false, storeErase cache p) := by
  simp [isFileEmpty, hm, hi]

theorem provideFileDecoration_matching (inspector : Inspector) (st : ProviderState) (p : String)
    (hb : basename p = INIT_FILENAME) :
    provideFileDecoration inspector st p =
      (some ⟨none,
            some (if (isFileEmpty inspector st.cache p).1 then "Empty __init__.py file"
                  else "Non-empty __init__.py file"),
            some (if (isFileEmpty inspector st.cache p).1 then st.colors.empty
                  else st.colors.nonEmpty)⟩,
       { st with cache := (isFileEmpty inspector st.cache p).2 }) := by
  simp [provideFileDecoration, hb]

/-! ## Claim theorems: decoration provider -/

/-- C1: when emptiness is determined to be `true` (a cache hit with `true`,
or a cache miss whose inspection succeeds with `true`),
`provideFileDecoration` returns the empty-variant color handle and the
tooltip "Empty __init__.py file"; when it is determined to be `false`, the
non-empty-variant handle and "Non-empty __init__.py file". -/
theorem provideFileDecoration_variant_matches_emptiness
    (inspector : Inspector) (st : ProviderState) (p : String) (b : Bool)
    (hb : basename p = INIT_FILENAME)
    (hdet : storeLookup st.cache p = some b ∨
      (storeLookup st.cache p = none ∧ inspector p = .ok b)) :
    (provideFileDecoration inspector st p).1 =
      some ⟨none,
            some (if b then "Empty __init__.py file" else "Non-empty __init__.py file"),
            some (if b then st.colors.empty else st.colors.nonEmpty)⟩ := by
  rw [provideFileDecoration_matching inspector st p hb]
  rcases hdet with h | ⟨hm, hi⟩
  · rw [isFileEmpty_hit inspector st.cache p b h]
  · rw [isFileEmpty_miss_ok inspector st.cache p b hm hi]

/-- Witness for C1: a concrete empty file is decorated with the empty
variant, and a concrete cached-non-empty file with the non-empty variant. -/
theorem provideFileDecoration_variant_matches_emptiness_witness :
    (provideFileDecoration (fun _ => .ok true) ⟨⟨⟨"e"⟩, ⟨"n"⟩⟩, []⟩ "/p/__init__.py").1 =
      some ⟨none, some "Empty __init__.py file", some ⟨"e"⟩⟩ ∧
    (provideFileDecoration (fun _ => .ok true) ⟨⟨⟨"e"⟩, ⟨"n"⟩⟩, [("/p/__init__.py", false)]⟩
        "/p/__init__.py").1 =
      some ⟨none, some "Non-empty __init__.py file", some ⟨"n"⟩⟩ := by
  constructor
  · have := provideFileDecoration_variant_matches_emptiness (fun _ => .ok true)
      ⟨⟨⟨"e"⟩, ⟨"n"⟩⟩, []⟩ "/p/__init__.py" true (by decide) (Or.inr ⟨rfl, rfl⟩)
    simpa using this
  · have := provideFileDecoration_variant_matches_emptiness (fun _ => .ok true)
      ⟨⟨⟨"e"⟩, ⟨"n"⟩⟩, [("/p/__init__.py", false)]⟩ "/p/__init__.py" false (by decide)
      (Or.inl (by decide))
    simpa using this

/-- C2: a file identifier whose basename is not exactly `__init__.py` gets
no decoration, for every inspector and every provider state, and the state
(in particular the emptiness cache) is returned unchanged. -/
theorem provideFileDecoration_nonmatching_none
    (inspector : Inspector) (st : ProviderState) (p : String)
    (hb : basename p ≠ INIT_FILENAME) :
    provideFileDecoration inspector st p = (none, st) := by
  simp [provideFileDecoration, hb]

/-- Witness for C2: `/some/path/not_init.py` gets no decoration and leaves
a non-trivial cache untouched, under an inspector that would answer. -/
theorem provideFileDecoration_nonmatching_none_witness :
    provideFileDecoration (fun _ => .ok true) ⟨⟨⟨"e"⟩, ⟨"n"⟩⟩, [("/x/__init__.py", true)]⟩
        "/some/path/not_init.py" =
      (none, ⟨⟨⟨"e"⟩, ⟨"n"⟩⟩, [("/x/__init__.py", true)]⟩) :=
  provideFileDecoration_nonmatching_none (fun _ => .ok true)
    ⟨⟨⟨"e"⟩, ⟨"n"⟩⟩, [("/x/__init__.py", true)]⟩ "/some/path/not_init.py" (by decide)

/-- C3: when the inspector rejects during `provideFileDecoration` (which
happens exactly on a cache miss, since a hit never runs the inspector),
the call returns the non-empty-variant decoration instead of propagating
the error, the resulting cache holds no entry for the identifier, and a
subsequent call under a successfully-answering inspector returns the fresh
inspection's variant. -/
theorem provideFileDecoration_inspector_error_fail_open
    (inspector : Inspector) (st : ProviderState) (p : String)
    (hb : basename p = INIT_FILENAME)
    (hm : storeLookup st.cache p = none)
    (hi : inspector p = .error ()) :
    (provideFileDecoration inspector st p).1 =
      some ⟨none, some "Non-empty __init__.py file", some st.colors.nonEmpty⟩ ∧
    storeLookup (provideFileDecoration inspector st p).2.cache p = none ∧
    ∀ (inspector2 : Inspector) (b : Bool), inspector2 p = .ok b →
      (provideFileDecoration inspector2 (provideFileDecoration inspector st p).2 p).1 =
        some ⟨none,
              some (if b then "Empty __init__.py file" else "Non-empty __init__.py file"),
              some (if b then st.colors.empty else st.colors.nonEmpty)⟩ := by
  rw [provideFileDecoration_matching inspector st p hb,
    isFileEmpty_miss_error inspector st.cache p hm hi]
  refine ⟨rfl, by simp, ?_⟩
  intro inspector2 b hb2
  have := provideFileDecoration_variant_matches_emptiness inspector2
    ⟨st.colors, storeErase st.cache p⟩ p b hb (Or.inr ⟨by simp, hb2⟩)
  simpa using this

/-- Witness for C3: a failing inspection on a cache miss yields the
non-empty decoration, leaves no cache entry, and a following successful
inspection reporting empty yields the empty decoration. -/
theorem provideFileDecoration_inspector_error_fail_open_witness :
    (provideFileDecoration (fun _ => .error ()) ⟨⟨⟨"e"⟩, ⟨"n"⟩⟩, []⟩ "/p/__init__.py").1 =
      some ⟨none, some "Non-empty __init__.py file", some ⟨"n"⟩⟩ ∧
    storeLookup
      (provideFileDecoration (fun _ => .error ()) ⟨⟨⟨"e"⟩, ⟨"n"⟩⟩, []⟩ "/p/__init__.py").2.cache
      "/p/__init__.py" = none ∧
    (provideFileDecoration (fun _ => .ok true)
        (provideFileDecoration (fun _ => .error ()) ⟨⟨⟨"e"⟩, ⟨"n"⟩⟩, []⟩ "/p/__init__.py").2
        "/p/__init__.py").1 =
      some ⟨none, some "Empty __init__.py file", some ⟨"e"⟩⟩ := by
  have h := provideFileDecoration_inspector_error_fail_open (fun _ => .error ())
    ⟨⟨⟨"e"⟩, ⟨"n"⟩⟩, []⟩ "/p/__init__.py" (by decide) rfl rfl
  refine ⟨h.1, h.2.1, ?_⟩
  have := h.2.2 (fun _ => .ok true) true rfl
  simpa using this

/-- C5: after `invalidateCache` on one identifier, the next
`provideFileDecoration` for it reflects a fresh inspection (whatever was
cached before); after a full `invalidateCache`, this holds for every
identifier. -/
theorem invalidateCache_forces_fresh_inspection
    (inspector : Inspector) (st : ProviderState) (p : String) (b : Bool)
    (hb : basename p = INIT_FILENAME)
    (hi : inspector p = .ok b) :
    (provideFileDecoration inspector (invalidateCache st (some p)) p).1 =
      some ⟨none,
            some (if b then "Empty __init__.py file" else "Non-empty __init__.py file"),
            some (if b then st.colors.empty else st.colors.nonEmpty)⟩ ∧
    ∀ (q : String) (bq : Bool), basename q = INIT_FILENAME → inspector q = .ok bq →
      (provideFileDecoration inspector (invalidateCache st none) q).1 =
        some ⟨none,
              some (if bq then "Empty __init__.py file" else "Non-empty __init__.py file"),
              some (if bq then st.colors.empty else st.colors.nonEmpty)⟩ := by
  constructor
  · have := provideFileDecoration_variant_matches_emptiness inspector
      (invalidateCache st (some p)) p b hb (Or.inr ⟨by simp [invalidateCache], hi⟩)
    simpa [invalidateCache] using this
  · intro q bq hbq hiq
    have := provideFileDecoration_variant_matches_emptiness inspector
      (invalidateCache st none) q bq hbq (Or.inr ⟨by simp [invalidateCache], hiq⟩)
    simpa [invalidateCache] using this

/-- Witness for C5: with a stale cache entry claiming the file is empty
while the inspector now reports non-empty, both invalidation flavors make
the next query return the fresh non-empty answer. -/
theorem invalidateCache_forces_fresh_inspection_witness :
    (provideFileDecoration (fun _ => .ok false)
        (invalidateCache ⟨⟨⟨"e"⟩, ⟨"n"⟩⟩, [("/p/__init__.py", true)]⟩ (some "/p/__init__.py"))
        "/p/__init__.py").1 =
      some ⟨none, some "Non-empty __init__.py file", some ⟨"n"⟩⟩ ∧
    (provideFileDecoration (fun _ => .ok false)
        (invalidateCache ⟨⟨⟨"e"⟩, ⟨"n"⟩⟩, [("/p/__init__.py", true)]⟩ none)
        "/p/__init__.py").1 =
      some ⟨none, some "Non-empty __init__.py file", some ⟨"n"⟩⟩ := by
  have h := invalidateCache_forces_fresh_inspection (fun _ => .ok false)
    ⟨⟨⟨"e"⟩, ⟨"n"⟩⟩, [("/p/__init__.py", true)]⟩ "/p/__init__.py" false (by decide) rfl
  refine ⟨by simpa using h.1, ?_⟩
  have := h.2 "/p/__init__.py" false (by decide) rfl
  simpa using this

/-! ## Helper lemmas about the resolver and store adapter -/

theorem resolveColorFromSetting_eq (raw : Option String) (themeId fallback : String)
    (store : CustomizationSection) :
    resolveColorFromSetting raw themeId fallback store =
      if isHexColor (getConfiguredColor raw fallback) then
        (⟨themeId⟩,
         (applyColorCustomization themeId (getConfiguredColor raw fallback) store).1,
         (applyColorCustomization themeId (getConfiguredColor raw fallback) store).2)
      else
        (⟨getConfiguredColor raw fallback⟩,
         (removeColorCustomizationIfPresent themeId store).1,
         (removeColorCustomizationIfPresent themeId store).2) := by
  by_cases h : isHexColor (getConfiguredColor raw fallback) <;>
    simp [resolveColorFromSetting, h]

theorem isHexDigitCI_iff (c : Char) :
    isHexDigitCI c = true ↔ (c ∈ "0123456789abcdef".data ∨ c ∈ "ABCDEF".data) := by
  constructor
  · intro h
    simp only [isHexDigitCI, Bool.or_eq_true, Bool.and_eq_true, decide_eq_true_eq,
      show '0'.toNat = 48 from rfl, show '9'.toNat = 57 from rfl,
      show 'a'.toNat = 97 from rfl, show 'f'.toNat = 102 from rfl,
      show 'A'.toNat = 65 from rfl, show 'F'.toNat = 70 from rfl] at h
    have hcase : c.toNat = 48 ∨ c.toNat = 49 ∨ c.toNat = 50 ∨ c.toNat = 51 ∨ c.toNat = 52 ∨
        c.toNat = 53 ∨ c.toNat = 54 ∨ c.toNat = 55 ∨ c.toNat = 56 ∨ c.toNat = 57 ∨
        c.toNat = 97 ∨ c.toNat = 98 ∨ c.toNat = 99 ∨ c.toNat = 100 ∨ c.toNat = 101 ∨
        c.toNat = 102 ∨ c.toNat = 65 ∨ c.toNat = 66 ∨ c.toNat = 67 ∨ c.toNat = 68 ∨
        c.toNat = 69 ∨ c.toNat = 70 := by omega
    rcases hcase with h' | h' | h' | h' | h' | h' | h' | h' | h' | h' | h' | h' | h' | h' | h' |
      h' | h' | h' | h' | h' | h' | h' <;>
      rw [← Char.ofNat_toNat c, h'] <;> decide
  · intro h
    rcases h with h | h <;> fin_cases h <;> decide

theorem isHexColor_iff_specLiteralColorPattern (s : String) :
    isHexColor s = true ↔ specLiteralColorPattern s := by
  rcases hs : s.data with _ | ⟨c, rest⟩
  · constructor
    · intro h
      simp [isHexColor, hs] at h
    · rintro ⟨ds, hds, -, -⟩
      rw [hs] at hds
      cases hds
  · constructor
    · intro h
      simp only [isHexColor, hs, Bool.and_eq_true, decide_eq_true_eq, Bool.or_eq_true,
        beq_iff_eq, List.all_eq_true] at h
      obtain ⟨⟨hc, hlen⟩, hall⟩ := h
      refine ⟨rest, by rw [hs, hc], hlen, ?_⟩
      intro d hd
      exact (isHexDigitCI_iff d).mp (hall d hd)
    · rintro ⟨ds, hds, hlen, hall⟩
      rw [hs] at hds
      injection hds with hc hrest
      subst hc
      subst hrest
      simp only [isHexColor, hs, Bool.and_eq_true, decide_eq_true_eq, Bool.or_eq_true,
        beq_iff_eq, List.all_eq_true]
      exact ⟨⟨trivial, hlen⟩, fun d hd => (isHexDigitCI_iff d).mpr (hall d hd)⟩

/-- C4: the resolver classifies a normalized setting string as a literal
color exactly when it is a `#` followed by six or eight case-insensitive
hex digits; literals resolve to the dedicated token's handle, anything
else (a total function — resolution never fails) to a handle naming the
string itself; `#fff`, `#12345`, `#1234567` and `#ZZZZZZ` are all
rejected as literals. -/
theorem resolver_hex_literal_classification (s : String) (themeId fallback : String)
    (store : CustomizationSection)
    (hnorm : getConfiguredColor (some s) fallback = s) :
    (isHexColor s = true ↔ specLiteralColorPattern s) ∧
    (specLiteralColorPattern s →
      (resolveColorFromSetting (some s) themeId fallback store).1 = ⟨themeId⟩) ∧
    (¬ specLiteralColorPattern s →
      (resolveColorFromSetting (some s) themeId fallback store).1 = ⟨s⟩) ∧
    isHexColor "#fff" = false ∧ isHexColor "#12345" = false ∧
    isHexColor "#1234567" = false ∧ isHexColor "#ZZZZZZ" = false := by
  refine ⟨isHexColor_iff_specLiteralColorPattern s, ?_, ?_, by decide, by decide, by decide,
    by decide⟩
  · intro hp
    have hh : isHexColor s = true := (isHexColor_iff_specLiteralColorPattern s).mpr hp
    rw [resolveColorFromSetting_eq, hnorm, hh]
    simp
  · intro hp
    have hh : isHexColor s = false := by
      rcases hb : isHexColor s with _ | _
      · rfl
      · exact absurd ((isHexColor_iff_specLiteralColorPattern s).mp hb) hp
    rw [resolveColorFromSetting_eq, hnorm, hh]
    simp

/-- Witness for C4: the malformed literal `#ZZZZZZ` is classified symbolic
and used directly as the token name of the returned handle. -/
theorem resolver_hex_literal_classification_witness :
    (resolveColorFromSetting (some "#ZZZZZZ") "pinit.decorations.initFileEmpty" "#70707099"
        none).1 = ⟨"#ZZZZZZ"⟩ := by
  have h := resolver_hex_literal_classification "#ZZZZZZ" "pinit.decorations.initFileEmpty"
    "#70707099" none (by decide)
  exact h.2.2.1 (fun hp => absurd ((h.1).mpr hp) (by decide))

theorem applyColorCustomization_noop (themeId hex : String) (store : CustomizationSection)
    (h : storeLookup (store.getD []) themeId = some hex) :
    applyColorCustomization themeId hex store = (store, false) := by
  simp [applyColorCustomization, h]

theorem applyColorCustomization_lookup (themeId hex : String) (store : CustomizationSection) :
    storeLookup ((applyColorCustomization themeId hex store).1.getD []) themeId = some hex := by
  unfold applyColorCustomization
  by_cases h : storeLookup (store.getD []) themeId = some hex <;> simp [h]

theorem removeColorCustomization_noop (themeId : String) (store : CustomizationSection)
    (h : storeLookup (store.getD []) themeId = none) :
    removeColorCustomizationIfPresent themeId store = (store, false) := by
  simp [removeColorCustomizationIfPresent, h]

theorem removeColorCustomization_lookup (themeId : String) (store : CustomizationSection) :
    storeLookup ((removeColorCustomizationIfPresent themeId store).1.getD []) themeId = none := by
  unfold removeColorCustomizationIfPresent
  cases h : storeLookup (store.getD []) themeId with
  | none => simp [h]
  | some v =>
    by_cases hl : (storeErase (store.getD []) themeId).length ≠ 0 <;> simp [h, hl]

/-- After `removeColorCustomizationIfPresent` on a section that holds the
token: the token is gone, every other key is unchanged, and the written
section is never the empty container `some []`. -/
theorem removeColorCustomization_present (themeId : String) (store : CustomizationSection)
    (v : String) (h : storeLookup (store.getD []) themeId = some v) :
    storeLookup ((removeColorCustomizationIfPresent themeId store).1.getD []) themeId = none ∧
    (∀ k, k ≠ themeId →
      storeLookup ((removeColorCustomizationIfPresent themeId store).1.getD []) k =
        storeLookup (store.getD []) k) ∧
    (removeColorCustomizationIfPresent themeId store).1 ≠ some [] := by
  by_cases hl : storeErase (store.getD []) themeId = []
  · have hred : removeColorCustomizationIfPresent themeId store = (none, true) := by
      simp [removeColorCustomizationIfPresent, h, hl]
    refine ⟨by simp [hred], ?_, by simp [hred]⟩
    intro k hk
    have hother := storeLookup_erase_ne (store.getD []) themeId k hk
    rw [hl] at hother
    simp [hred, ← hother]
  · have hred : removeColorCustomizationIfPresent themeId store =
        (some (storeErase (store.getD []) themeId), true) := by
      simp [removeColorCustomizationIfPresent, h, hl]
    refine ⟨by simp [hred], ?_, by simp [hred, hl]⟩
    intro k hk
    simp [hred, storeLookup_erase_ne _ _ _ hk]

/-- C6: re-running the resolver with the same setting value performs no
second write — the second call returns the first call's handle and store
with the wrote-flag `false`; in particular `applyColorCustomization` is a
no-op when the token already holds the literal and
`removeColorCustomizationIfPresent` is a no-op when the token is absent. -/
theorem resolver_second_call_writes_nothing (rawValue : Option String)
    (themeId fallback : String) (store : CustomizationSection) :
    resolveColorFromSetting rawValue themeId fallback
        (resolveColorFromSetting rawValue themeId fallback store).2.1 =
      ((resolveColorFromSetting rawValue themeId fallback store).1,
       (resolveColorFromSetting rawValue themeId fallback store).2.1, false) ∧
    (∀ (s : CustomizationSection) (hex : String),
      storeLookup (s.getD []) themeId = some hex →
      applyColorCustomization themeId hex s = (s, false)) ∧
    (∀ s : CustomizationSection, storeLookup (s.getD []) themeId = none →
      removeColorCustomizationIfPresent themeId s = (s, false)) := by
  refine ⟨?_, fun s hex h => applyColorCustomization_noop themeId hex s h,
    fun s h => removeColorCustomization_noop themeId s h⟩
  by_cases hh : isHexColor (getConfiguredColor rawValue fallback) = true
  · have ha := applyColorCustomization_noop themeId (getConfiguredColor rawValue fallback)
      (applyColorCustomization themeId (getConfiguredColor rawValue fallback) store).1
      (applyColorCustomization_lookup themeId (getConfiguredColor rawValue fallback) store)
    simp [resolveColorFromSetting_eq, hh, ha]
  · have hb : isHexColor (getConfiguredColor rawValue fallback) = false := by
      rcases hx : isHexColor (getConfiguredColor rawValue fallback) <;> simp_all
    have hr := removeColorCustomization_noop themeId
      (removeColorCustomizationIfPresent themeId store).1
      (removeColorCustomization_lookup themeId store)
    simp [resolveColorFromSetting_eq, hb, hr]

/-- Witness for C6: resolving `#AABBCC` twice from an absent section writes
once and then reports no write, leaving the single-entry section as is. -/
theorem resolver_second_call_writes_nothing_witness :
    resolveColorFromSetting (some "#AABBCC") "pinit.decorations.initFileEmpty" "#70707099"
        (resolveColorFromSetting (some "#AABBCC") "pinit.decorations.initFileEmpty" "#70707099"
          none).2.1 =
      (⟨"pinit.decorations.initFileEmpty"⟩,
       some [("pinit.decorations.initFileEmpty", "#AABBCC")], false) := by
  rw [(resolver_second_call_writes_nothing (some "#AABBCC") "pinit.decorations.initFileEmpty"
    "#70707099" none).1]
  decide

/-- C7: resolving a literal and then a symbolic value for the same setting
removes the literal stored under the dedicated token, leaves every other
key of the customization section unchanged, and never writes back an
empty container for the section. -/
theorem literal_then_symbolic_removes_literal (raw1 raw2 : Option String)
    (themeId fallback : String) (s0 : CustomizationSection)
    (h1 : isHexColor (getConfiguredColor raw1 fallback) = true)
    (h2 : isHexColor (getConfiguredColor raw2 fallback) = false) :
    storeLookup ((resolveColorFromSetting raw2 themeId fallback
        (resolveColorFromSetting raw1 themeId fallback s0).2.1).2.1.getD []) themeId = none ∧
    (∀ k, k ≠ themeId →
      storeLookup ((resolveColorFromSetting raw2 themeId fallback
          (resolveColorFromSetting raw1 themeId fallback s0).2.1).2.1.getD []) k =
        storeLookup ((resolveColorFromSetting raw1 themeId fallback s0).2.1.getD []) k) ∧
    (resolveColorFromSetting raw2 themeId fallback
        (resolveColorFromSetting raw1 themeId fallback s0).2.1).2.1 ≠ some [] := by
  have hs1 : storeLookup ((resolveColorFromSetting raw1 themeId fallback s0).2.1.getD [])
      themeId = some (getConfiguredColor raw1 fallback) := by
    rw [resolveColorFromSetting_eq, h1]
    simpa using applyColorCustomization_lookup themeId (getConfiguredColor raw1 fallback) s0
  have hrem := removeColorCustomization_present themeId
    (resolveColorFromSetting raw1 themeId fallback s0).2.1 (getConfiguredColor raw1 fallback) hs1
  rw [resolveColorFromSetting_eq raw2 themeId fallback
    (resolveColorFromSetting raw1 themeId fallback s0).2.1, h2]
  simpa using hrem

/-- Witness for C7: applying `#ABCDEF99` then `charts.blue` removes the
dedicated token and keeps an unrelated `other.token` entry intact. -/
theorem literal_then_symbolic_removes_literal_witness :
    storeLookup ((resolveColorFromSetting (some "charts.blue")
        "pinit.decorations.initFileEmpty" "#70707099"
        (resolveColorFromSetting (some "#ABCDEF99") "pinit.decorations.initFileEmpty"
          "#70707099" (some [("other.token", "#123456")])).2.1).2.1.getD [])
      "pinit.decorations.initFileEmpty" = none ∧
    storeLookup ((resolveColorFromSetting (some "charts.blue")
        "pinit.decorations.initFileEmpty" "#70707099"
        (resolveColorFromSetting (some "#ABCDEF99") "pinit.decorations.initFileEmpty"
          "#70707099" (some [("other.token", "#123456")])).2.1).2.1.getD [])
      "other.token" = some "#123456" := by
  have h := literal_then_symbolic_removes_literal (some "#ABCDEF99") (some "charts.blue")
    "pinit.decorations.initFileEmpty" "#70707099" (some [("other.token", "#123456")])
    (by decide) (by decide)
  refine ⟨h.1, ?_⟩
  rw [h.2.1 "other.token" (by decide)]
  decide

theorem getConfiguredColor_blank (raw : Option String) (fallback : String)
    (h : jsTrim (raw.getD "") = "") : getConfiguredColor raw fallback = fallback := by
  cases raw with
  | none => rfl
  | some v =>
    simp only [Option.getD] at h
    by_cases hv : v = "" <;> simp [getConfiguredColor, hv, h]

/-- C8: an unset, empty, or all-whitespace configured value is replaced by
the variant's fixed default literal (`#70707099` for the empty variant and
`#FFFFFF99` for the non-empty variant) before classification: resolving
such a raw value behaves exactly like resolving the default itself. -/
theorem blank_setting_resolves_default (raw : Option String)
    (h : jsTrim (raw.getD "") = "") :
    DEFAULT_EMPTY_COLOR = "#70707099" ∧
    DEFAULT_NON_EMPTY_COLOR = "#FFFFFF99" ∧
    getConfiguredColor raw DEFAULT_EMPTY_COLOR = DEFAULT_EMPTY_COLOR ∧
    getConfiguredColor raw DEFAULT_NON_EMPTY_COLOR = DEFAULT_NON_EMPTY_COLOR ∧
    (∀ (themeId : String) (store : CustomizationSection),
      resolveColorFromSetting raw themeId DEFAULT_EMPTY_COLOR store =
        resolveColorFromSetting (some DEFAULT_EMPTY_COLOR) themeId DEFAULT_EMPTY_COLOR store) ∧
    (∀ (themeId : String) (store : CustomizationSection),
      resolveColorFromSetting raw themeId DEFAULT_NON_EMPTY_COLOR store =
        resolveColorFromSetting (some DEFAULT_NON_EMPTY_COLOR) themeId
          DEFAULT_NON_EMPTY_COLOR store) := by
  have he : getConfiguredColor (some DEFAULT_EMPTY_COLOR) DEFAULT_EMPTY_COLOR =
      DEFAULT_EMPTY_COLOR := by decide
  have hn : getConfiguredColor (some DEFAULT_NON_EMPTY_COLOR) DEFAULT_NON_EMPTY_COLOR =
      DEFAULT_NON_EMPTY_COLOR := by decide
  refine ⟨rfl, rfl, getConfiguredColor_blank raw _ h, getConfiguredColor_blank raw _ h, ?_, ?_⟩
  · intro themeId store
    rw [resolveColorFromSetting_eq, resolveColorFromSetting_eq,
      getConfiguredColor_blank raw _ h, he]
  · intro themeId store
    rw [resolveColorFromSetting_eq, resolveColorFromSetting_eq,
      getConfiguredColor_blank raw _ h, hn]

/-- Witness for C8: an all-whitespace setting value (spaces around a form
feed and a vertical tab) resolves exactly like the default literal of
each variant. -/
theorem blank_setting_resolves_default_witness :
    getConfiguredColor (some " \u000C\u000B ") DEFAULT_EMPTY_COLOR = DEFAULT_EMPTY_COLOR ∧
    resolveColorFromSetting (some " \u000C\u000B ") "pinit.decorations.initFileEmpty"
        DEFAULT_EMPTY_COLOR none =
      resolveColorFromSetting (some DEFAULT_EMPTY_COLOR) "pinit.decorations.initFileEmpty"
        DEFAULT_EMPTY_COLOR none ∧
    resolveColorFromSetting (some " \u000C\u000B ") "pinit.decorations.initFile"
        DEFAULT_NON_EMPTY_COLOR none =
      resolveColorFromSetting (some DEFAULT_NON_EMPTY_COLOR) "pinit.decorations.initFile"
        DEFAULT_NON_EMPTY_COLOR none := by
  have h := blank_setting_resolves_default (some " \u000C\u000B ") (by decide)
  exact ⟨h.2.2.1, h.2.2.2.2.1 "pinit.decorations.initFileEmpty" none,
    h.2.2.2.2.2 "pinit.decorations.initFile" none⟩

/-- C9: despite the `a ?? b > c` operator-precedence accident in
`getColorCustomizationTarget`, the computed target agrees with the
intended semantics on every workspace state: the workspace scope is
chosen exactly when at least one workspace folder is open. -/
theorem configuration_target_matches_intended (workspaceFolders : Option Nat) :
    getColorCustomizationTarget workspaceFolders =
      intendedColorCustomizationTarget workspaceFolders ∧
    (getColorCustomizationTarget workspaceFolders = ConfigurationTarget.Workspace ↔
      ∃ n, workspaceFolders = some n ∧ 0 < n) := by
  cases workspaceFolders with
  | none =>
    simp [getColorCustomizationTarget, intendedColorCustomizationTarget, hasWorkspaceValue,
      jsTruthy]
  | some n =>
    by_cases hn : n = 0
    · simp [getColorCustomizationTarget, intendedColorCustomizationTarget, hasWorkspaceValue,
        jsTruthy, hn]
    · constructor
      · simp [getColorCustomizationTarget, intendedColorCustomizationTarget, hasWorkspaceValue,
          jsTruthy, hn, Nat.pos_of_ne_zero hn]
      · simp [getColorCustomizationTarget, hasWorkspaceValue, jsTruthy, hn]
        exact Nat.pos_of_ne_zero hn

/-- Witness for C9: one open folder selects the workspace scope; zero
folders or an undefined folder list select the global scope. -/
theorem configuration_target_matches_intended_witness :
    getColorCustomizationTarget (some 1) = ConfigurationTarget.Workspace ∧
    getColorCustomizationTarget (some 0) = ConfigurationTarget.Global ∧
    getColorCustomizationTarget none = ConfigurationTarget.Global := by
  refine ⟨?_, ?_, ?_⟩
  · exact (configuration_target_matches_intended (some 1)).2.mpr ⟨1, rfl, by decide⟩
  · exact ((configuration_target_matches_intended (some 0)).1).trans (by decide)
  · exact ((configuration_target_matches_intended none).1).trans (by decide)

theorem jsTrim_empty : jsTrim "" = "" := rfl

/-- C10: a non-blank configured value is used in trimmed form — the
resolver's classification and the symbolic handle's token name both use
the whitespace-trimmed string, never the raw one. -/
theorem resolver_uses_trimmed_value (s : String) (fallback : String)
    (h : jsTrim s ≠ "") :
    getConfiguredColor (some s) fallback = jsTrim s ∧
    (∀ (themeId : String) (store : CustomizationSection),
      (resolveColorFromSetting (some s) themeId fallback store).1 =
        if isHexColor (jsTrim s) then ⟨themeId⟩ else ⟨jsTrim s⟩) := by
  have hs : s ≠ "" := by
    intro he
    exact h (he ▸ jsTrim_empty)
  have hg : getConfiguredColor (some s) fallback = jsTrim s := by
    simp [getConfiguredColor, hs, h]
  refine ⟨hg, ?_⟩
  intro themeId store
  rw [resolveColorFromSetting_eq, hg]
  by_cases hh : isHexColor (jsTrim s) = true
  · simp [hh]
  · have hb : isHexColor (jsTrim s) = false := by
      rcases hx : isHexColor (jsTrim s) <;> simp_all
    simp [hb]

/-- Witness for C10: a hex literal padded with whitespace — including a
vertical tab, which JS `trim()` strips — is trimmed and then classified
as a literal, yielding the dedicated token's handle. -/
theorem resolver_uses_trimmed_value_witness :
    getConfiguredColor (some "\u000B#AABBCC ") "#70707099" = "#AABBCC" ∧
    (resolveColorFromSetting (some "\u000B#AABBCC ") "pinit.decorations.initFileEmpty"
        "#70707099" none).1 = ⟨"pinit.decorations.initFileEmpty"⟩ := by
  have h := resolver_uses_trimmed_value "\u000B#AABBCC " "#70707099" (by decide)
  refine ⟨by rw [h.1]; decide, ?_⟩
  rw [h.2 "pinit.decorations.initFileEmpty" none]
  decide

end PInit
